import Mathlib

/-!
Verification of pdf2pptx (src/pdf2pptx.py) against its specification.

The script is embedded shallowly:
 - `parse_slide_size` mirrors the Python function of the same name; Python
   `float(...)` is modelled by `pyFloatOfData` (CPython string-to-float
   acceptance, ASCII subset), returning a `PyFloat` (a rational for finite
   values, plus infinities and nan).
 - `main` mirrors the Python `main()` as a pure function from a parsed
   argument record (`Config`) and an oracle for the external world
   (`World`: filesystem checks, mkdir, the convert subprocess, save,
   rmtree) to a `RunResult`: the ordered trace of externally visible
   effects, the exit code, and the number of slides assembled.
-/

/-- Python whitespace characters stripped by `float(str)` (ASCII subset). -/
def isPySpace (c : Char) : Bool :=
  c = ' ' ∨ c = '\t' ∨ c = '\n' ∨ c = '\r' ∨ c = '\x0b' ∨ c = '\x0c'

/-- Strip leading and trailing whitespace, as CPython does before parsing
a float from a string. -/
def pyStrip (l : List Char) : List Char :=
  ((l.dropWhile isPySpace).reverse.dropWhile isPySpace).reverse

/-- One step of a CPython digit run with underscores: after the leading
digit, further digits may follow, and an underscore is consumed only when
a digit follows it directly.  Returns the digits seen (underscores
dropped) and the unconsumed rest. -/
def digitRunGo : List Char → List Char → List Char × List Char
  | acc, d :: rest =>
    if d.isDigit then digitRunGo (acc ++ [d]) rest
    else
      match d, rest with
      | '_', e :: rest2 =>
        if e.isDigit then digitRunGo (acc ++ [e]) rest2
        else (acc, '_' :: e :: rest2)
      | _, _ => (acc, d :: rest)
  | acc, [] => (acc, [])

/-- Parse a CPython digit run `[0-9](_?[0-9])*`; `none` when the input does
not start with a digit. -/
def parseDigitRun : List Char → Option (List Char × List Char)
  | c :: rest => if c.isDigit then some (digitRunGo [c] rest) else none
  | [] => none

/-- Numeric value of a list of decimal digits. -/
def digitsVal (ds : List Char) : Nat :=
  ds.foldl (fun n c => 10 * n + (c.toNat - 48)) 0

/-- A Python float value as far as this program observes it: a finite
value (modelled exactly as a rational), a signed infinity, or nan. -/
inductive PyFloat where
  | finite (q : Rat)
  | inf (neg : Bool)
  | nan
  deriving DecidableEq, Repr

/-- Parse the optional exponent part `([eE][+-]?digits)?` followed by end
of input; returns the exponent (0 when absent), or `none` on junk. -/
def parseExpPart : List Char → Option Int
  | [] => some 0
  | c :: rest =>
    if c = 'e' ∨ c = 'E' then
      let (eneg, r2) : Bool × List Char :=
        match rest with
        | '+' :: r => (false, r)
        | '-' :: r => (true, r)
        | _ => (false, rest)
      match parseDigitRun r2 with
      | some (es, r3) =>
        if r3 = [] then some (if eneg then -(digitsVal es : Int) else (digitsVal es : Int))
        else none
      | none => none
    else none

/-- Assemble the finite value from sign, integer digits, fractional digits
and the remaining input (which must be a valid exponent part or empty). -/
def finishDecimal (neg : Bool) (intDs fracDs : List Char) (rest : List Char) :
    Option PyFloat :=
  match parseExpPart rest with
  | some e =>
    let mag : Rat :=
      ((digitsVal intDs : Rat) + (digitsVal fracDs : Rat) / (10 : Rat) ^ fracDs.length)
        * (10 : Rat) ^ e
    some (.finite (if neg then -mag else mag))
  | none => none

/-- Parse the decimal (non inf/nan) body of a Python float literal:
`digits [. digits?] [exp]` or `. digits [exp]`, whole input consumed. -/
def parseDecimalBody (neg : Bool) (l : List Char) : Option PyFloat :=
  match parseDigitRun l with
  | some (ds, rest) =>
    match rest with
    | '.' :: rest2 =>
      match parseDigitRun rest2 with
      | some (fs, rest3) => finishDecimal neg ds fs rest3
      | none => finishDecimal neg ds [] rest2
    | _ => finishDecimal neg ds [] rest
  | none =>
    match l with
    | '.' :: rest2 =>
      match parseDigitRun rest2 with
      | some (fs, rest3) => finishDecimal neg [] fs rest3
      | none => none
    | _ => none

/-- Python `float(s)` on the character data of `s`: strips surrounding
whitespace, accepts an optional sign, the spellings inf/infinity/nan
(case-insensitive), or a decimal literal with optional exponent and
CPython underscore grouping.  `none` models `ValueError`. -/
def pyFloatOfData (l0 : List Char) : Option PyFloat :=
  let l := pyStrip l0
  let (neg, l1) : Bool × List Char :=
    match l with
    | '+' :: r => (false, r)
    | '-' :: r => (true, r)
    | _ => (false, l)
  let low := l1.map Char.toLower
  if low = "inf".data ∨ low = "infinity".data then some (.inf neg)
  else if low = "nan".data then some .nan
  else parseDecimalBody neg l1

/-- Auxiliary for `splitOnX`: accumulates the current chunk (reversed). -/
def splitOnXGo : List Char → List Char → List (List Char)
  | acc, [] => [acc.reverse]
  | acc, c :: cs =>
    if c = 'x' then acc.reverse :: splitOnXGo [] cs
    else splitOnXGo (c :: acc) cs

/-- Python `s.split('x')` on character data: the chunks between the
occurrences of `'x'` (always one more chunk than there are separators). -/
def splitOnX (l : List Char) : List (List Char) :=
  splitOnXGo [] l

instance {ε α : Type} [DecidableEq ε] [DecidableEq α] : DecidableEq (Except ε α) := fun x y =>
  match x, y with
  | .ok a, .ok b =>
    if h : a = b then .isTrue (by rw [h]) else .isFalse (fun hc => h (Except.ok.inj hc))
  | .error a, .error b =>
    if h : a = b then .isTrue (by rw [h]) else .isFalse (fun hc => h (Except.error.inj hc))
  | .ok _, .error _ => .isFalse (fun hc => Except.noConfusion hc)
  | .error _, .ok _ => .isFalse (fun hc => Except.noConfusion hc)

/-- The message passed to `error_and_exit` by `parse_slide_size`
(quotation marks of the source text elided). -/
def slideSizeErrMsg : String :=
  "Could not parse slide size. Use 16:9, 4:3, or WxH in inches."

/-- Embedding of `parse_slide_size` (src/pdf2pptx.py lines 18-39): the two
preset pairs, else `size_str.split('x')` unpacked into exactly two parts,
each converted by Python `float`; any failure (wrong number of parts or
unparseable part) reaches `error_and_exit`, modelled as `.error` carrying
the logged message (the process then exits with status 1). -/
def parse_slide_size (size_str : String) : Except String (PyFloat × PyFloat) :=
  if size_str = "16:9" ∨ size_str = "16x9" then
    .ok (.finite (13.3333 : Rat), .finite (7.5 : Rat))
  else if size_str = "4:3" ∨ size_str = "4x3" then
    .ok (.finite (10.0 : Rat), .finite (7.5 : Rat))
  else
    match splitOnX size_str.data with
    | [w_str, h_str] =>
      match pyFloatOfData w_str, pyFloatOfData h_str with
      | some w, some h => .ok (w, h)
      | _, _ => .error slideSizeErrMsg
    | _ => .error slideSizeErrMsg

/-- The intermediate image format (the --image-format flag, JPEG or PNG). -/
inductive ImageFormat where
  | JPEG
  | PNG
  deriving DecidableEq, Repr

/-- The parsed command line of pdf2pptx, as produced by argparse
(src/pdf2pptx.py lines 42-85).  `temp_dir` is `none` when the flag was
not given (Python `None`). -/
structure Config where
  verbose : Bool
  retain_image_files : Bool
  dpi : Int
  quality : Int
  image_format : ImageFormat
  temp_dir : Option String
  slide_size : String
  input_pdf : String
  output_pptx : String
  deriving DecidableEq, Repr

/-- Index of the last occurrence of a character in a list, if any. -/
def lastIdx (c : Char) : List Char → Option Nat
  | [] => none
  | a :: as =>
    match lastIdx c as with
    | some i => some (i + 1)
    | none => if a = c then some 0 else none

/-- POSIX `os.path.basename`: everything after the last slash. -/
def pyBasename (p : String) : String :=
  match lastIdx '/' p.data with
  | none => p
  | some i => ⟨p.data.drop (i + 1)⟩

/-- The root part of POSIX `os.path.splitext`: the extension is cut at the
last dot, provided it lies after the last slash and some character of the
basename before it is not a dot (so dotfiles keep their name). -/
def pySplitextRoot (p : String) : String :=
  match lastIdx '.' p.data with
  | none => p
  | some di =>
    let fi : Nat :=
      match lastIdx '/' p.data with
      | some si => si + 1
      | none => 0
    if fi ≤ di ∧ ((p.data.take di).drop fi).any (fun c => ¬ c = '.') then
      ⟨p.data.take di⟩
    else p

/-- POSIX `os.path.join` for two components. -/
def pyJoin (a b : String) : String :=
  if b.data.head? = some '/' then b
  else if a = "" ∨ a.data.getLast? = some '/' then a ++ b
  else a ++ "/" ++ b

/-- The temporary directory used by `main` (src/pdf2pptx.py lines 103-108):
the `--temp-dir` argument when it is truthy (given and non-empty), else
`<basename-without-extension>_temp`. -/
def resolveTempDir (cfg : Config) : String :=
  let base_name := pySplitextRoot (pyBasename cfg.input_pdf)
  match cfg.temp_dir with
  | some t => if t = "" then base_name ++ "_temp" else t
  | none => base_name ++ "_temp"

/-- The extension chosen from the image format (src/pdf2pptx.py 120-124). -/
def extensionFor : ImageFormat → String
  | .JPEG => "jpg"
  | .PNG => "png"

/-- The ImageMagick command list built by `main`
(src/pdf2pptx.py lines 126-138). -/
def convertCmd (cfg : Config) (temp_dir extension : String) : List String :=
  (if cfg.verbose then ["convert", "-verbose"] else ["convert"])
    ++ ["-density", toString cfg.dpi, cfg.input_pdf, "-resize", "50%",
        "-quality", toString cfg.quality,
        pyJoin temp_dir ("page." ++ extension)]

/-- An externally visible effect of one run, in program order. -/
inductive Event where
  | logError (msg : String)
  | logWarning (msg : String)
  | mkdirTemp (path : String)
  | runConvert (cmd : List String)
  | rmtreeIgnoreErrors (path : String)
  | savePptx (path : String)
  | rmtree (path : String)
  deriving DecidableEq, Repr

/-- Oracle for everything `main` observes of the outside world.  Each
field is the outcome of the corresponding OS or subprocess call.
`has_page i` models `os.path.isfile(os.path.join(temp_dir,
"page-<i>.<ext>"))` in the discovery loop; `no_page_at` witnesses that the
filesystem is finite, so the loop terminates: some index has no file. -/
structure World where
  input_isfile : Bool
  temp_exists : Bool
  mkdir_ok : Bool
  convert_ok : Bool
  temp_isdir_after_fail : Bool
  has_page : Nat → Bool
  no_page_at : Nat
  no_page_at_missing : has_page no_page_at = false
  save_ok : Bool
  rmtree_ok : Bool

/-- Outcome of one run: the effect trace, the process exit status, and
the number of slides added to the in-memory presentation (`none` when the
run aborted before the assembly loop). -/
structure RunResult where
  trace : List Event
  exitCode : Nat
  slides : Option Nat
  deriving DecidableEq, Repr

/-- The discovery loop of `main` (src/pdf2pptx.py lines 162-182): starting
at index `i`, count consecutive indices whose page image exists; stop at
the first missing one.  `fuel` bounds the recursion; when `f fuel = false`
(as `World.no_page_at_missing` guarantees for `fuel = no_page_at`), the
bound is never the reason the loop stops, so this is the exact loop count. -/
def countTrueFrom (f : Nat → Bool) : Nat → Nat → Nat
  | 0, i => i
  | fuel + 1, i => if f i then countTrueFrom f fuel (i + 1) else i

def pdfMissingMsg (pdf_file : String) : String :=
  "PDF file " ++ pdf_file ++ " does not exist."

def tempExistsMsg (temp_dir : String) : String :=
  "Temporary directory " ++ temp_dir ++ " already exists. "
    ++ "Remove it or specify a different directory with --temp-dir."

def mkdirFailMsg (temp_dir : String) : String :=
  "Could not create directory " ++ temp_dir ++ "."

def convertFailMsg : String :=
  "ImageMagick conversion failed."

def rmtreeWarnMsg (temp_dir : String) : String :=
  "Could not remove " ++ temp_dir ++ "."

/-- Embedding of `main` (src/pdf2pptx.py lines 41-197), given the parsed
arguments and the world oracle.  Mirrors the source step by step: input
check, temp-dir resolution and exclusive creation, convert invocation with
conditional cleanup on failure, slide-size parsing, the page-discovery /
slide-adding loop, `prs.save` (an unhandled exception when it fails —
Python then exits with status 1 without reaching the cleanup step), and
the retain-flag-controlled cleanup.  Messages elide the quoting and
exception text of the source. -/
def Pdf2pptx.main (cfg : Config) (w : World) : RunResult :=
  if ¬ w.input_isfile then
    ⟨[.logError (pdfMissingMsg cfg.input_pdf)], 1, none⟩
  else
    let temp_dir := resolveTempDir cfg
    if w.temp_exists then
      ⟨[.logError (tempExistsMsg temp_dir)], 1, none⟩
    else if ¬ w.mkdir_ok then
      ⟨[.mkdirTemp temp_dir, .logError (mkdirFailMsg temp_dir)], 1, none⟩
    else
      let extension := extensionFor cfg.image_format
      let cmd := convertCmd cfg temp_dir extension
      let pre : List Event := [.mkdirTemp temp_dir, .runConvert cmd]
      if ¬ w.convert_ok then
        ⟨pre
          ++ (if w.temp_isdir_after_fail ∧ ¬ cfg.retain_image_files then
                [.rmtreeIgnoreErrors temp_dir] else [])
          ++ [.logError convertFailMsg], 1, none⟩
      else
        match parse_slide_size cfg.slide_size with
        | .error msg => ⟨pre ++ [.logError msg], 1, none⟩
        | .ok _wh =>
          let slide_count := countTrueFrom w.has_page w.no_page_at 0
          if ¬ w.save_ok then
            ⟨pre ++ [.savePptx cfg.output_pptx], 1, some slide_count⟩
          else
            let post : List Event :=
              if ¬ cfg.retain_image_files then
                if w.rmtree_ok then [.rmtree temp_dir]
                else [.rmtree temp_dir, .logWarning (rmtreeWarnMsg temp_dir)]
              else []
            ⟨pre ++ [.savePptx cfg.output_pptx] ++ post, 0, some slide_count⟩

/-! ## Supporting lemmas -/

/-- The discovery loop returns exactly the first missing index: if every
index from `i` up to (excluding) `N` has a page, index `N` has none, and
the fuel reaches `N`, the loop stops at `N`. -/
theorem countTrueFrom_eq_first_gap (f : Nat → Bool) :
    ∀ (fuel i N : Nat), i ≤ N → (∀ j, i ≤ j → j < N → f j = true) →
      f N = false → N ≤ i + fuel → countTrueFrom f fuel i = N := by
  intro fuel
  induction fuel with
  | zero =>
    intro i N hiN _ _ hle
    have : i = N := by omega
    simpa [countTrueFrom] using this
  | succ fuel ih =>
    intro i N hiN hall hN hle
    by_cases hi : i = N
    · subst hi
      simp [countTrueFrom, hN]
    · have hlt : i < N := lt_of_le_of_ne hiN hi
      have hfi : f i = true := hall i le_rfl hlt
      simp only [countTrueFrom, hfi, if_true]
      exact ih (i + 1) N hlt (fun j h1 h2 => hall j (by omega) h2) hN (by omega)

/-- `splitOnXGo` always yields one more chunk than there are separators
left in the input. -/
theorem splitOnXGo_length :
    ∀ (l acc : List Char), (splitOnXGo acc l).length = l.count 'x' + 1 := by
  intro l
  induction l with
  | nil => intro acc; simp [splitOnXGo]
  | cons c cs ih =>
    intro acc
    by_cases h : c = 'x'
    · subst h
      simp [splitOnXGo, ih, List.count_cons]
    · simp [splitOnXGo, h, ih, List.count_cons]

/-- Python `s.split('x')` yields one more chunk than there are `'x'`
occurrences in `s`. -/
theorem splitOnX_length (l : List Char) :
    (splitOnX l).length = l.count 'x' + 1 :=
  splitOnXGo_length l []

/-- Once the input check, the exclusivity check and `mkdir` have passed,
the trace starts with the workspace creation and the convert invocation,
and no later event is another convert invocation. -/
theorem main_trace_shape (cfg : Config) (w : World)
    (hin : w.input_isfile = true) (hex : w.temp_exists = false)
    (hmk : w.mkdir_ok = true) :
    ∃ tail,
      (Pdf2pptx.main cfg w).trace
        = Event.mkdirTemp (resolveTempDir cfg)
            :: Event.runConvert
                (convertCmd cfg (resolveTempDir cfg) (extensionFor cfg.image_format))
            :: tail ∧
      ∀ c, Event.runConvert c ∉ tail := by
  by_cases hconv : w.convert_ok
  · rcases hps : parse_slide_size cfg.slide_size with m | wh
    · exact ⟨[.logError m], by simp [Pdf2pptx.main, hin, hex, hmk, hconv, hps], by simp⟩
    · by_cases hsave : w.save_ok
      · by_cases hr : cfg.retain_image_files
        · exact ⟨[.savePptx cfg.output_pptx],
            by simp [Pdf2pptx.main, hin, hex, hmk, hconv, hps, hsave, hr], by simp⟩
        · by_cases hrm : w.rmtree_ok
          · exact ⟨[.savePptx cfg.output_pptx, .rmtree (resolveTempDir cfg)],
              by simp [Pdf2pptx.main, hin, hex, hmk, hconv, hps, hsave, hr, hrm], by simp⟩
          · exact ⟨[.savePptx cfg.output_pptx, .rmtree (resolveTempDir cfg),
                .logWarning (rmtreeWarnMsg (resolveTempDir cfg))],
              by simp [Pdf2pptx.main, hin, hex, hmk, hconv, hps, hsave, hr, hrm], by simp⟩
      · exact ⟨[.savePptx cfg.output_pptx],
          by simp [Pdf2pptx.main, hin, hex, hmk, hconv, hps, hsave], by simp⟩
  · refine ⟨(if w.temp_isdir_after_fail ∧ ¬ cfg.retain_image_files then
        [Event.rmtreeIgnoreErrors (resolveTempDir cfg)] else [])
        ++ [.logError convertFailMsg], ?_, ?_⟩
    · simp [Pdf2pptx.main, hin, hex, hmk, hconv]
    · intro c
      split <;> simp

/-! ## Concrete inputs used by witnesses and counterexamples -/

/-- A typical parsed command line: all defaults, an explicit temp dir. -/
def cfgDefault : Config :=
  { verbose := false, retain_image_files := false, dpi := 1200, quality := 95,
    image_format := .JPEG, temp_dir := some "tmpd", slide_size := "16:9",
    input_pdf := "in.pdf", output_pptx := "out.pptx" }

/-- A world in which every step succeeds and no page image exists. -/
def worldAllOk : World :=
  { input_isfile := true, temp_exists := false, mkdir_ok := true,
    convert_ok := true, temp_isdir_after_fail := true,
    has_page := fun _ => false, no_page_at := 0,
    no_page_at_missing := rfl, save_ok := true, rmtree_ok := true }

/-- A world whose workspace holds page images 0, 1, 2 and also 4 and 5,
but not 3: a gap at index 3 with files beyond it. -/
def worldWithGap : World :=
  { input_isfile := true, temp_exists := false, mkdir_ok := true,
    convert_ok := true, temp_isdir_after_fail := true,
    has_page := fun i => decide (¬ i = 3 ∧ i ≤ 5), no_page_at := 3,
    no_page_at_missing := by decide, save_ok := true, rmtree_ok := true }

/-! ## Claim C5 -/

/-- C5: when the workspace path already exists at creation time (as a file
or a directory), the run aborts with exit status 1 and the only effect is
the error report: no directory is created, nothing is deleted, nothing is
written — the pre-existing path is never reused or modified. -/
theorem claim5_workspace_exists_aborts (cfg : Config) (w : World)
    (hin : w.input_isfile = true) (hex : w.temp_exists = true) :
    Pdf2pptx.main cfg w =
      ⟨[.logError (tempExistsMsg (resolveTempDir cfg))], 1, none⟩ := by
  simp [Pdf2pptx.main, hin, hex]

/-- C5 witness: the theorem applied to a concrete run whose temp dir
pre-exists. -/
theorem claim5_witness :
    Pdf2pptx.main cfgDefault { worldAllOk with temp_exists := true } =
      ⟨[.logError (tempExistsMsg (resolveTempDir cfgDefault))], 1, none⟩ :=
  claim5_workspace_exists_aborts cfgDefault { worldAllOk with temp_exists := true } rfl rfl

/-! ## Claim C4 -/

/-- C4: when the external convert command exits non-zero (and the
workspace directory is present, as it is after a successful `mkdir`):
without retention the workspace is deleted immediately with deletion
errors ignored and the run ends with the error report and exit status 1;
with retention requested, the workspace is left alone (no deletion of any
kind) and the run likewise reports the error and exits 1. -/
theorem claim4_convert_failure_cleanup (cfg : Config) (w : World)
    (hin : w.input_isfile = true) (hex : w.temp_exists = false)
    (hmk : w.mkdir_ok = true) (hconv : w.convert_ok = false)
    (hdir : w.temp_isdir_after_fail = true) :
    (cfg.retain_image_files = false →
      Pdf2pptx.main cfg w =
        ⟨[.mkdirTemp (resolveTempDir cfg),
          .runConvert (convertCmd cfg (resolveTempDir cfg) (extensionFor cfg.image_format)),
          .rmtreeIgnoreErrors (resolveTempDir cfg),
          .logError convertFailMsg], 1, none⟩) ∧
    (cfg.retain_image_files = true →
      Pdf2pptx.main cfg w =
        ⟨[.mkdirTemp (resolveTempDir cfg),
          .runConvert (convertCmd cfg (resolveTempDir cfg) (extensionFor cfg.image_format)),
          .logError convertFailMsg], 1, none⟩) := by
  cases hr : cfg.retain_image_files <;>
    simp [Pdf2pptx.main, hin, hex, hmk, hconv, hdir, hr]

/-- C4 witness: the theorem applied to a concrete run whose convert
invocation fails, without the retention flag. -/
theorem claim4_witness :
    (cfgDefault.retain_image_files = false →
      Pdf2pptx.main cfgDefault { worldAllOk with convert_ok := false } =
        ⟨[.mkdirTemp (resolveTempDir cfgDefault),
          .runConvert (convertCmd cfgDefault (resolveTempDir cfgDefault)
            (extensionFor cfgDefault.image_format)),
          .rmtreeIgnoreErrors (resolveTempDir cfgDefault),
          .logError convertFailMsg], 1, none⟩) ∧
    (cfgDefault.retain_image_files = true →
      Pdf2pptx.main cfgDefault { worldAllOk with convert_ok := false } =
        ⟨[.mkdirTemp (resolveTempDir cfgDefault),
          .runConvert (convertCmd cfgDefault (resolveTempDir cfgDefault)
            (extensionFor cfgDefault.image_format)),
          .logError convertFailMsg], 1, none⟩) :=
  claim4_convert_failure_cleanup cfgDefault { worldAllOk with convert_ok := false }
    rfl rfl rfl rfl rfl

/-! ## Claim C1 -/

/-- C1 counterexample: a run whose slide-size token is malformed.  Contrary
to the claim, the temporary directory is created (`mkdirTemp`) and the
external rasterization command is run (`runConvert`) before the
configuration error is reported: slide-size parsing happens only after
rasterization in the source (line 152 vs lines 116 and 142). -/
theorem claim1_counterexample :
    Pdf2pptx.main { cfgDefault with slide_size := "bogus" } worldAllOk =
      ⟨[.mkdirTemp "tmpd",
        .runConvert ["convert", "-density", "1200", "in.pdf", "-resize", "50%",
          "-quality", "95", "tmpd/page.jpg"],
        .logError slideSizeErrMsg], 1, none⟩ := by
  decide

/-- C1 as amended: a malformed slide-size token still makes the process
exit with status 1 after a descriptive message, but only after the
workspace has been created and the external rasterization command has
been run; the workspace is then left behind (no deletion is attempted)
and nothing is saved. -/
theorem claim1_config_error_after_side_effects (cfg : Config) (w : World) (m : String)
    (hin : w.input_isfile = true) (hex : w.temp_exists = false)
    (hmk : w.mkdir_ok = true) (hconv : w.convert_ok = true)
    (hparse : parse_slide_size cfg.slide_size = .error m) :
    Pdf2pptx.main cfg w =
      ⟨[.mkdirTemp (resolveTempDir cfg),
        .runConvert (convertCmd cfg (resolveTempDir cfg) (extensionFor cfg.image_format)),
        .logError m], 1, none⟩ := by
  simp [Pdf2pptx.main, hin, hex, hmk, hconv, hparse]

/-- C1 witness: the amended theorem applied to a concrete malformed run. -/
theorem claim1_witness :
    Pdf2pptx.main { cfgDefault with slide_size := "bogus" } worldAllOk =
      ⟨[.mkdirTemp (resolveTempDir { cfgDefault with slide_size := "bogus" }),
        .runConvert (convertCmd { cfgDefault with slide_size := "bogus" }
          (resolveTempDir { cfgDefault with slide_size := "bogus" })
          (extensionFor cfgDefault.image_format)),
        .logError slideSizeErrMsg], 1, none⟩ :=
  claim1_config_error_after_side_effects { cfgDefault with slide_size := "bogus" }
    worldAllOk slideSizeErrMsg rfl rfl rfl rfl (by decide)

/-! ## Claim C2 -/

/-- C2 counterexample: a run whose save step fails, without the retention
flag.  Contrary to the claim, no workspace cleanup of any kind appears in
the trace — the temporary directory is not deleted even though
--retain-image-files is absent: `prs.save` is not guarded in the source,
so the exception propagates past the cleanup step (lines 185-197). -/
theorem claim2_counterexample :
    Pdf2pptx.main cfgDefault { worldAllOk with save_ok := false } =
      ⟨[.mkdirTemp "tmpd",
        .runConvert ["convert", "-density", "1200", "in.pdf", "-resize", "50%",
          "-quality", "95", "tmpd/page.jpg"],
        .savePptx "out.pptx"], 1, some 0⟩ := by
  decide

/-- C2 as amended: when serializing the output presentation fails, the
error propagates as fatal and the process exits with code 1, but workspace
cleanup is NOT attempted: the trace ends at the failed save, with no
`rmtree` of any kind, whatever the retain flag says. -/
theorem claim2_save_failure_skips_cleanup (cfg : Config) (w : World)
    (wh : PyFloat × PyFloat)
    (hin : w.input_isfile = true) (hex : w.temp_exists = false)
    (hmk : w.mkdir_ok = true) (hconv : w.convert_ok = true)
    (hparse : parse_slide_size cfg.slide_size = .ok wh)
    (hsave : w.save_ok = false) :
    Pdf2pptx.main cfg w =
      ⟨[.mkdirTemp (resolveTempDir cfg),
        .runConvert (convertCmd cfg (resolveTempDir cfg) (extensionFor cfg.image_format)),
        .savePptx cfg.output_pptx], 1,
        some (countTrueFrom w.has_page w.no_page_at 0)⟩ := by
  simp [Pdf2pptx.main, hin, hex, hmk, hconv, hparse, hsave]

/-- C2 witness: the amended theorem applied to a concrete failed-save run. -/
theorem claim2_witness :
    Pdf2pptx.main cfgDefault { worldAllOk with save_ok := false } =
      ⟨[.mkdirTemp (resolveTempDir cfgDefault),
        .runConvert (convertCmd cfgDefault (resolveTempDir cfgDefault)
          (extensionFor cfgDefault.image_format)),
        .savePptx cfgDefault.output_pptx], 1,
        some (countTrueFrom worldAllOk.has_page worldAllOk.no_page_at 0)⟩ :=
  claim2_save_failure_skips_cleanup cfgDefault { worldAllOk with save_ok := false }
    (.finite (13.3333 : Rat), .finite (7.5 : Rat)) rfl rfl rfl rfl rfl rfl

/-! ## Claim C6 -/

/-- C6: when the page images form a contiguous zero-based run of length
`N` with index `N` missing, the assembly loop produces exactly `N` slides,
one per image in index order, even when images with higher indices exist
beyond the gap: enumeration stops at the first missing index. -/
theorem claim6_gap_stops_enumeration (cfg : Config) (w : World) (N : Nat)
    (hin : w.input_isfile = true) (hex : w.temp_exists = false)
    (hmk : w.mkdir_ok = true) (hconv : w.convert_ok = true)
    (hsz : (parse_slide_size cfg.slide_size).isOk = true)
    (hall : ∀ i, i < N → w.has_page i = true)
    (hN : w.has_page N = false) :
    (Pdf2pptx.main cfg w).slides = some N := by
  have hle : N ≤ w.no_page_at := by
    by_contra hlt
    push_neg at hlt
    have := hall _ hlt
    rw [w.no_page_at_missing] at this
    exact Bool.false_ne_true this
  have hcount : countTrueFrom w.has_page w.no_page_at 0 = N :=
    countTrueFrom_eq_first_gap w.has_page w.no_page_at 0 N (Nat.zero_le N)
      (fun j _ hj => hall j hj) hN (by omega)
  rcases hps : parse_slide_size cfg.slide_size with m | wh
  · rw [hps] at hsz
    simp [Except.isOk, Except.toBool] at hsz
  · cases hsave : w.save_ok <;>
      simp [Pdf2pptx.main, hin, hex, hmk, hconv, hps, hsave, hcount]

/-- C6 witness: images at indices 0, 1, 2, a gap at 3, and further images
at 4 and 5: exactly 3 slides are produced. -/
theorem claim6_witness :
    (Pdf2pptx.main cfgDefault worldWithGap).slides = some 3 :=
  claim6_gap_stops_enumeration cfgDefault worldWithGap 3 rfl rfl rfl rfl rfl
    (fun i hi => by
      match i, hi with
      | 0, _ => rfl
      | 1, _ => rfl
      | 2, _ => rfl)
    rfl

/-! ## Claim C8 -/

/-- C8: when no page image at all is discovered (index 0 is already
missing), the presentation is still saved to the output path with zero
slides, this is not treated as an error, and the process exits with
status 0. -/
theorem claim8_zero_images_success (cfg : Config) (w : World)
    (hin : w.input_isfile = true) (hex : w.temp_exists = false)
    (hmk : w.mkdir_ok = true) (hconv : w.convert_ok = true)
    (hsz : (parse_slide_size cfg.slide_size).isOk = true)
    (h0 : w.has_page 0 = false) (hsave : w.save_ok = true) :
    (Pdf2pptx.main cfg w).exitCode = 0 ∧
    (Pdf2pptx.main cfg w).slides = some 0 ∧
    Event.savePptx cfg.output_pptx ∈ (Pdf2pptx.main cfg w).trace := by
  have hcount : countTrueFrom w.has_page w.no_page_at 0 = 0 := by
    cases hnp : w.no_page_at with
    | zero => rfl
    | succ n => simp [countTrueFrom, h0]
  rcases hps : parse_slide_size cfg.slide_size with m | wh
  · rw [hps] at hsz
    simp [Except.isOk, Except.toBool] at hsz
  · cases hr : cfg.retain_image_files <;> cases hrm : w.rmtree_ok <;>
      simp [Pdf2pptx.main, hin, hex, hmk, hconv, hps, hsave, hcount, hr, hrm]

/-- C8 witness: the theorem applied to a concrete run with an empty
workspace. -/
theorem claim8_witness :
    (Pdf2pptx.main cfgDefault worldAllOk).exitCode = 0 ∧
    (Pdf2pptx.main cfgDefault worldAllOk).slides = some 0 ∧
    Event.savePptx cfgDefault.output_pptx ∈ (Pdf2pptx.main cfgDefault worldAllOk).trace :=
  claim8_zero_images_success cfgDefault worldAllOk rfl rfl rfl rfl rfl rfl rfl

/-! ## Claim C9 -/

/-- C9: once the run reaches the rasterization step, the command it runs
is exactly `convert (-verbose)? -density <dpi> <input_pdf> -resize 50%
-quality <quality> <workspace>/page.<ext>`, with `-verbose` present exactly
when verbose mode is on and `<ext>` equal to `jpg` for JPEG and `png` for
PNG; moreover every convert invocation in the trace carries this one
command, so the command is a function of the configuration alone. -/
theorem claim9_convert_command (cfg : Config) (w : World)
    (hin : w.input_isfile = true) (hex : w.temp_exists = false)
    (hmk : w.mkdir_ok = true) :
    Event.runConvert
        ((if cfg.verbose then ["convert", "-verbose"] else ["convert"])
          ++ ["-density", toString cfg.dpi, cfg.input_pdf, "-resize", "50%",
              "-quality", toString cfg.quality,
              pyJoin (resolveTempDir cfg)
                ("page." ++ (if cfg.image_format = ImageFormat.JPEG then "jpg" else "png"))])
      ∈ (Pdf2pptx.main cfg w).trace ∧
    ∀ c, Event.runConvert c ∈ (Pdf2pptx.main cfg w).trace →
      c = (if cfg.verbose then ["convert", "-verbose"] else ["convert"])
          ++ ["-density", toString cfg.dpi, cfg.input_pdf, "-resize", "50%",
              "-quality", toString cfg.quality,
              pyJoin (resolveTempDir cfg)
                ("page." ++ (if cfg.image_format = ImageFormat.JPEG then "jpg" else "png"))] := by
  have hcmd : convertCmd cfg (resolveTempDir cfg) (extensionFor cfg.image_format)
      = (if cfg.verbose then ["convert", "-verbose"] else ["convert"])
          ++ ["-density", toString cfg.dpi, cfg.input_pdf, "-resize", "50%",
              "-quality", toString cfg.quality,
              pyJoin (resolveTempDir cfg)
                ("page." ++ (if cfg.image_format = ImageFormat.JPEG then "jpg" else "png"))] := by
    cases cfg.image_format <;> simp [convertCmd, extensionFor]
  obtain ⟨tail, htr, hno⟩ := main_trace_shape cfg w hin hex hmk
  rw [hcmd] at htr
  rw [htr]
  refine ⟨by simp, ?_⟩
  intro c hc
  simp only [List.mem_cons] at hc
  rcases hc with h | h | h
  · exact absurd h (by simp)
  · exact Event.runConvert.inj h
  · exact absurd h (hno c)

/-- C9 witness: the theorem applied to a concrete default run. -/
theorem claim9_witness :
    Event.runConvert
        ((if cfgDefault.verbose then ["convert", "-verbose"] else ["convert"])
          ++ ["-density", toString cfgDefault.dpi, cfgDefault.input_pdf, "-resize", "50%",
              "-quality", toString cfgDefault.quality,
              pyJoin (resolveTempDir cfgDefault)
                ("page." ++
                  (if cfgDefault.image_format = ImageFormat.JPEG then "jpg" else "png"))])
      ∈ (Pdf2pptx.main cfgDefault worldAllOk).trace ∧
    ∀ c, Event.runConvert c ∈ (Pdf2pptx.main cfgDefault worldAllOk).trace →
      c = (if cfgDefault.verbose then ["convert", "-verbose"] else ["convert"])
          ++ ["-density", toString cfgDefault.dpi, cfgDefault.input_pdf, "-resize", "50%",
              "-quality", toString cfgDefault.quality,
              pyJoin (resolveTempDir cfgDefault)
                ("page." ++
                  (if cfgDefault.image_format = ImageFormat.JPEG then "jpg" else "png"))] :=
  claim9_convert_command cfgDefault worldAllOk rfl rfl rfl

/-! ## Claim C7 -/

/-- C7: the slide-size parser maps each preset token to its documented
literal pair exactly — both 16:9 spellings to (13.3333, 7.5), both 4:3
spellings to (10.0, 7.5) — and the well-formed custom token 12.5x8 to
(12.5, 8.0). -/
theorem claim7_preset_and_custom_values :
    parse_slide_size "16:9" = .ok (.finite (13.3333 : Rat), .finite (7.5 : Rat)) ∧
    parse_slide_size "16x9" = .ok (.finite (13.3333 : Rat), .finite (7.5 : Rat)) ∧
    parse_slide_size "4:3" = .ok (.finite (10.0 : Rat), .finite (7.5 : Rat)) ∧
    parse_slide_size "4x3" = .ok (.finite (10.0 : Rat), .finite (7.5 : Rat)) ∧
    parse_slide_size "12.5x8" = .ok (.finite (12.5 : Rat), .finite (8.0 : Rat)) := by
  refine ⟨by rfl, by rfl, by rfl, by rfl, ?_⟩
  norm_num +decide [parse_slide_size, splitOnX, splitOnXGo, pyFloatOfData, pyStrip, isPySpace,
    parseDecimalBody, parseDigitRun, digitRunGo, finishDecimal, parseExpPart, digitsVal,
    show ('1'.toNat : Nat) = 49 from rfl, show ('2'.toNat : Nat) = 50 from rfl,
    show ('5'.toNat : Nat) = 53 from rfl, show ('8'.toNat : Nat) = 56 from rfl]

/-! ## Claims C3 and C10: the custom-token branch of the parser -/

/-- On every non-preset token the parser is literally the split-and-float
branch of the source. -/
theorem parse_slide_size_custom (s : String)
    (h1 : s ≠ "16:9") (h2 : s ≠ "16x9") (h3 : s ≠ "4:3") (h4 : s ≠ "4x3") :
    parse_slide_size s =
      match splitOnX s.data with
      | [w_str, h_str] =>
        match pyFloatOfData w_str, pyFloatOfData h_str with
        | some w, some h => .ok (w, h)
        | _, _ => .error slideSizeErrMsg
      | _ => .error slideSizeErrMsg := by
  unfold parse_slide_size
  simp [h1, h2, h3, h4]

/-- C3 counterexample: the parser happily returns a zero width for
"0x7.5" and a negative width for "-3x5" — parts only have to be
`float`-parseable, positivity is never checked, contradicting the claim
that it never returns a zero or negative dimension. -/
theorem claim3_counterexample :
    parse_slide_size "0x7.5" = .ok (.finite (0 : Rat), .finite (7.5 : Rat)) ∧
    parse_slide_size "-3x5" = .ok (.finite (-3 : Rat), .finite (5 : Rat)) := by
  constructor <;>
    norm_num +decide [parse_slide_size, splitOnX, splitOnXGo, pyFloatOfData, pyStrip, isPySpace,
      parseDecimalBody, parseDigitRun, digitRunGo, finishDecimal, parseExpPart, digitsVal,
      show ('0'.toNat : Nat) = 48 from rfl, show ('3'.toNat : Nat) = 51 from rfl,
      show ('5'.toNat : Nat) = 53 from rfl, show ('7'.toNat : Nat) = 55 from rfl]

/-- C3 as amended: for every non-preset token, whenever the token does not
split on the character x into exactly two `float`-parseable parts (but with
no positivity requirement on the parsed values), the parser fails with the
configuration error and the process, having reached the parsing step,
terminates with exit status 1 after emitting the descriptive message. -/
theorem claim3_unparseable_token_aborts (s : String) (cfg : Config) (w : World)
    (h1 : s ≠ "16:9") (h2 : s ≠ "16x9") (h3 : s ≠ "4:3") (h4 : s ≠ "4x3")
    (hbad : ¬ ((splitOnX s.data).length = 2 ∧
        (splitOnX s.data).all (fun p => (pyFloatOfData p).isSome) = true))
    (hcfg : cfg.slide_size = s)
    (hin : w.input_isfile = true) (hex : w.temp_exists = false)
    (hmk : w.mkdir_ok = true) (hconv : w.convert_ok = true) :
    parse_slide_size s = .error slideSizeErrMsg ∧
    (Pdf2pptx.main cfg w).exitCode = 1 ∧
    Event.logError slideSizeErrMsg ∈ (Pdf2pptx.main cfg w).trace := by
  have hps := parse_slide_size_custom s h1 h2 h3 h4
  have herr : parse_slide_size s = .error slideSizeErrMsg := by
    rw [hps]
    rcases hsp : splitOnX s.data with _ | ⟨p1, _ | ⟨p2, _ | ⟨p3, t⟩⟩⟩
    · rfl
    · rfl
    · rw [hsp] at hbad
      cases ho1 : pyFloatOfData p1 with
      | none => simp [ho1]
      | some v1 =>
        cases ho2 : pyFloatOfData p2 with
        | none => simp [ho1, ho2]
        | some v2 =>
          exfalso
          exact hbad (by simp [ho1, ho2])
    · rfl
  refine ⟨herr, ?_, ?_⟩ <;>
    simp [Pdf2pptx.main, hin, hex, hmk, hconv, hcfg, herr]

/-- C3 witness: the amended theorem applied to the malformed token
"abcxdef" in a concrete run. -/
theorem claim3_witness :
    parse_slide_size "abcxdef" = .error slideSizeErrMsg ∧
    (Pdf2pptx.main { cfgDefault with slide_size := "abcxdef" } worldAllOk).exitCode = 1 ∧
    Event.logError slideSizeErrMsg
      ∈ (Pdf2pptx.main { cfgDefault with slide_size := "abcxdef" } worldAllOk).trace :=
  claim3_unparseable_token_aborts "abcxdef"
    { cfgDefault with slide_size := "abcxdef" } worldAllOk
    (by decide) (by decide) (by decide) (by decide) (by decide)
    rfl rfl rfl rfl rfl

/-- C10: for every non-preset token, parsing succeeds exactly when the
token contains exactly one x character and both surrounding substrings are
accepted by Python float parsing (which tolerates surrounding whitespace,
signs and inf/nan spellings, as `pyFloatOfData` embeds); in every other
case the parser produces the error, and the process, having reached the
parsing step, logs the error and exits with status 1. -/
theorem claim10_custom_token_characterization (s : String) (cfg : Config) (w : World)
    (h1 : s ≠ "16:9") (h2 : s ≠ "16x9") (h3 : s ≠ "4:3") (h4 : s ≠ "4x3")
    (hcfg : cfg.slide_size = s)
    (hin : w.input_isfile = true) (hex : w.temp_exists = false)
    (hmk : w.mkdir_ok = true) (hconv : w.convert_ok = true) :
    ((parse_slide_size s).isOk = true ↔
      (s.data.count 'x' = 1 ∧
        (splitOnX s.data).all (fun p => (pyFloatOfData p).isSome) = true)) ∧
    ((parse_slide_size s).isOk = false →
      (Pdf2pptx.main cfg w).exitCode = 1 ∧
      Event.logError slideSizeErrMsg ∈ (Pdf2pptx.main cfg w).trace) := by
  have hps := parse_slide_size_custom s h1 h2 h3 h4
  have hlen := splitOnX_length s.data
  rcases hsp : splitOnX s.data with _ | ⟨p1, _ | ⟨p2, _ | ⟨p3, t⟩⟩⟩
  · rw [hsp] at hlen
    exact absurd hlen (by simp)
  · rw [hsp] at hps hlen
    have hc : s.data.count 'x' = 0 := by
      simpa using hlen.symm
    constructor
    · rw [hps]
      simp [Except.isOk, Except.toBool, hc]
    · intro _
      simp [Pdf2pptx.main, hin, hex, hmk, hconv, hcfg, hps]
  · rw [hsp] at hps hlen
    have hc : s.data.count 'x' = 1 := by
      simpa using hlen.symm
    have hps2 : parse_slide_size s =
        (match pyFloatOfData p1, pyFloatOfData p2 with
          | some a, some b => Except.ok (a, b)
          | _, _ => Except.error slideSizeErrMsg) := hps
    cases ho1 : pyFloatOfData p1 with
    | none =>
      rw [ho1] at hps2
      constructor
      · rw [hps2]
        simp [Except.isOk, Except.toBool, ho1]
      · intro _
        simp [Pdf2pptx.main, hin, hex, hmk, hconv, hcfg, hps2]
    | some v1 =>
      cases ho2 : pyFloatOfData p2 with
      | none =>
        rw [ho1, ho2] at hps2
        constructor
        · rw [hps2]
          simp [Except.isOk, Except.toBool, ho2]
        · intro _
          simp [Pdf2pptx.main, hin, hex, hmk, hconv, hcfg, hps2]
      | some v2 =>
        rw [ho1, ho2] at hps2
        constructor
        · rw [hps2]
          simp [Except.isOk, Except.toBool, hc, ho1, ho2]
        · intro hfalse
          rw [hps2] at hfalse
          simp [Except.isOk, Except.toBool] at hfalse
  · rw [hsp] at hps hlen
    have hc : ¬ s.data.count 'x' = 1 := by
      simp at hlen
      omega
    constructor
    · rw [hps]
      simp [Except.isOk, Except.toBool, hc]
    · intro _
      simp [Pdf2pptx.main, hin, hex, hmk, hconv, hcfg, hps]

/-- C10 witness: the theorem applied to the token "+3.5xnan" (one x, a
signed decimal on the left, a nan spelling on the right) in a concrete
run. -/
theorem claim10_witness :
    ((parse_slide_size "+3.5xnan").isOk = true ↔
      ("+3.5xnan".data.count 'x' = 1 ∧
        (splitOnX "+3.5xnan".data).all (fun p => (pyFloatOfData p).isSome) = true)) ∧
    ((parse_slide_size "+3.5xnan").isOk = false →
      (Pdf2pptx.main { cfgDefault with slide_size := "+3.5xnan" } worldAllOk).exitCode = 1 ∧
      Event.logError slideSizeErrMsg
        ∈ (Pdf2pptx.main { cfgDefault with slide_size := "+3.5xnan" } worldAllOk).trace) :=
  claim10_custom_token_characterization "+3.5xnan"
    { cfgDefault with slide_size := "+3.5xnan" } worldAllOk
    (by decide) (by decide) (by decide) (by decide)
    rfl rfl rfl rfl rfl
